import Mathlib

/-!
Verification development for the VPbot automation core.

Shallow embedding of the Python modules under src/modules into Lean:
pure functions become Lean functions, stateful methods become explicit
state-passing functions, wall-clock time is an explicit Nat parameter,
and calls into opaque callables (task actions, monitor handlers,
process/window queries) are represented by outcome oracles passed as
arguments.  Machine floats carrying match scores are represented by
exact integers, and images by rectangular lists of pixel rows, so that
all definitions are executable and all predicates decidable.
-/

/-- Applies f to the element at index i of a list, leaving everything
else unchanged; out-of-range indices leave the list unchanged.  This
models Python's in-place mutation of the object stored at index i of
an object list. -/
def updAt (l : List α) (i : Nat) (f : α → α) : List α :=
  match l, i with
  | [], _ => []
  | x :: xs, 0 => f x :: xs
  | x :: xs, n + 1 => x :: updAt xs n f

/-- Index of the first element satisfying p, mirroring a Python
for-loop with enumerate that returns at the first hit. -/
def firstIdx (p : α → Bool) : List α → Option Nat
  | [] => none
  | x :: xs => if p x then some 0 else (firstIdx p xs).map (· + 1)

theorem updAt_length (l : List α) (i : Nat) (f : α → α) :
    (updAt l i f).length = l.length := by
  induction l generalizing i with
  | nil => simp [updAt]
  | cons x xs ih => cases i <;> simp [updAt, ih]

theorem getElem?_updAt_self (l : List α) (i : Nat) (f : α → α) :
    (updAt l i f)[i]? = (l[i]?).map f := by
  induction l generalizing i with
  | nil => simp [updAt]
  | cons x xs ih => cases i <;> simp [updAt, ih]

theorem getElem?_updAt_ne (l : List α) (i j : Nat) (f : α → α) (h : i ≠ j) :
    (updAt l i f)[j]? = l[j]? := by
  induction l generalizing i j with
  | nil => simp [updAt]
  | cons x xs ih =>
    cases i with
    | zero => cases j with
      | zero => exact absurd rfl h
      | succ m => simp [updAt]
    | succ n => cases j with
      | zero => simp [updAt]
      | succ m => simp [updAt]; exact ih n m (by omega)

theorem updAt_updAt (l : List α) (i : Nat) (f g : α → α) :
    updAt (updAt l i f) i g = updAt l i (g ∘ f) := by
  induction l generalizing i with
  | nil => simp [updAt]
  | cons x xs ih => cases i <;> simp [updAt, ih]

theorem countP_updAt_le (p : α → Bool) (f : α → α) (h : ∀ a, p (f a) = false)
    (l : List α) (i : Nat) : (updAt l i f).countP p ≤ l.countP p := by
  induction l generalizing i with
  | nil => simp [updAt]
  | cons x xs ih =>
    cases i with
    | zero => simp [updAt, List.countP_cons, h]
    | succ n =>
      simp only [updAt, List.countP_cons]
      have := ih n
      omega

theorem firstIdx_eq_some (p : α → Bool) (l : List α) (i : Nat)
    (h : firstIdx p l = some i) : ∃ x, l[i]? = some x ∧ p x = true := by
  induction l generalizing i with
  | nil => simp [firstIdx] at h
  | cons x xs ih =>
    by_cases hp : p x
    · simp [firstIdx, hp] at h
      subst h
      exact ⟨x, by simp, hp⟩
    · simp [firstIdx, hp] at h
      obtain ⟨j, hj, hji⟩ := h
      obtain ⟨y, hy, hpy⟩ := ih j hj
      exact ⟨y, by simpa [← hji] using hy, hpy⟩

theorem firstIdx_min (p : α → Bool) (l : List α) (i : Nat)
    (h : firstIdx p l = some i) :
    ∀ j, j < i → ∀ x, l[j]? = some x → p x = false := by
  induction l generalizing i with
  | nil => simp [firstIdx] at h
  | cons x xs ih =>
    intro j hj y hy
    by_cases hp : p x
    · simp [firstIdx, hp] at h
      omega
    · simp [firstIdx, hp] at h
      obtain ⟨k, hk, hki⟩ := h
      cases j with
      | zero =>
        simp at hy
        subst hy
        simpa using hp
      | succ m =>
        simp at hy
        exact ih k hk m (by omega) y hy

namespace VPbot

/-! ## Task scheduler (src/modules/task_scheduler.py)

The unit-of-work callable attached to a Task is not data the scheduler
inspects; its result (truthy, falsy, or raising) is supplied to the
execution step as an ActionOutcome oracle. -/

structure Task where
  id : String
  name : String
  priority : Int
  interval_seconds : Nat
  last_execution_time : Nat
  is_running : Bool
  execution_count : Nat
  consecutive_failures : Nat
  max_retries : Nat
  current_step : Nat
  total_steps : Nat
  paused : Bool
deriving DecidableEq

/-- Constructor mirroring Task.__init__: seconds win over minutes,
default interval 300 seconds; counters and flags zeroed. -/
def Task.init (id name : String) (priority : Int)
    (interval_minutes interval_seconds : Option Nat) : Task :=
  { id := id
    name := name
    priority := priority
    interval_seconds :=
      match interval_seconds, interval_minutes with
      | some s, _ => s
      | none, some m => m * 60
      | none, none => 300
    last_execution_time := 0
    is_running := false
    execution_count := 0
    consecutive_failures := 0
    max_retries := 3
    current_step := 0
    total_steps := 1
    paused := false }

/-- Task.should_run: refuses while running or paused, else checks the
elapsed-seconds interval. -/
def Task.should_run (t : Task) (now : Nat) : Bool :=
  if t.is_running || t.paused then false
  else decide (t.interval_seconds ≤ now - t.last_execution_time)

structure TaskScheduler where
  tasks : List Task
  is_paused : Bool
  current_task_index : Option Nat
deriving DecidableEq

/-- Descending-priority comparison used by the Python
tasks.sort(key=priority, reverse=True); Python's sort is stable, and a
stable sort's output is unique, so insertion sort reproduces it. -/
def taskPrioGE (a b : Task) : Prop := b.priority ≤ a.priority

instance : DecidableRel taskPrioGE := fun a b =>
  inferInstanceAs (Decidable (b.priority ≤ a.priority))

instance : IsTotal Task taskPrioGE :=
  ⟨fun a b => le_total b.priority a.priority⟩

instance : IsTrans Task taskPrioGE :=
  ⟨fun _ _ _ h1 h2 => le_trans h2 h1⟩

def TaskScheduler.add_task (s : TaskScheduler) (id name : String) (priority : Int)
    (interval_minutes interval_seconds : Option Nat) : TaskScheduler :=
  if s.tasks.any (fun t => t.id = id) then s
  else
    let appended := s.tasks ++ [Task.init id name priority interval_minutes interval_seconds]
    { s with tasks := List.insertionSort taskPrioGE appended }

def TaskScheduler.remove_task (s : TaskScheduler) (task_id : String) :
    TaskScheduler × Bool :=
  match firstIdx (fun t => t.id = task_id) s.tasks with
  | none => (s, false)
  | some i =>
    let s1 :=
      if s.current_task_index = some i then
        { s with tasks := updAt s.tasks i (fun t => { t with is_running := false }),
                 current_task_index := none }
      else s
    ({ s1 with tasks := s1.tasks.eraseIdx i }, true)

def TaskScheduler.restart_task (s : TaskScheduler) (task_id : String) :
    TaskScheduler × Bool :=
  match firstIdx (fun t => t.id = task_id) s.tasks with
  | none => (s, false)
  | some i =>
    ({ s with tasks := updAt s.tasks i (fun t =>
        { t with is_running := false, last_execution_time := 0, current_step := 0,
                 consecutive_failures := 0, paused := false }) }, true)

def TaskScheduler.pause_task (s : TaskScheduler) (task_id : String) :
    TaskScheduler × Bool :=
  match firstIdx (fun t => t.id = task_id) s.tasks with
  | none => (s, false)
  | some i => ({ s with tasks := updAt s.tasks i (fun t => { t with paused := true }) }, true)

def TaskScheduler.resume_task (s : TaskScheduler) (task_id : String) :
    TaskScheduler × Bool :=
  match firstIdx (fun t => t.id = task_id) s.tasks with
  | none => (s, false)
  | some i => ({ s with tasks := updAt s.tasks i (fun t => { t with paused := false }) }, true)

def TaskScheduler.get_current_task (s : TaskScheduler) : Option Task :=
  match s.current_task_index with
  | some i => s.tasks[i]?
  | none => none

/-- TaskScheduler._select_next_task: first task in priority order whose
should_run holds is marked running, stamped with the selection time,
and its execution counter bumped. -/
def TaskScheduler.select_next_task (s : TaskScheduler) (now : Nat) : TaskScheduler :=
  match firstIdx (fun t => t.should_run now) s.tasks with
  | none => s
  | some i =>
    { s with tasks := updAt s.tasks i (fun t =>
        { t with is_running := true, last_execution_time := now,
                 execution_count := t.execution_count + 1, current_step := 0 }),
             current_task_index := some i }

/-- Result of invoking task.action(): truthy, falsy, or raising. -/
inductive ActionOutcome where
  | success
  | failure
  | raises
deriving DecidableEq

/-- Net effect of TaskScheduler._execute_task on the task object: the
running flag always drops; success zeroes the consecutive-failure
counter, failure or an exception increments it (the max_retries branch
only logs). -/
def Task.afterExecution (t : Task) (o : ActionOutcome) : Task :=
  match o with
  | .success => { t with is_running := false, consecutive_failures := 0 }
  | .failure => { t with is_running := false, consecutive_failures := t.consecutive_failures + 1 }
  | .raises => { t with is_running := false, consecutive_failures := t.consecutive_failures + 1 }

def TaskScheduler.execute_task (s : TaskScheduler) (i : Nat) (o : ActionOutcome) :
    TaskScheduler :=
  { s with tasks := updAt s.tasks i (fun t => t.afterExecution o),
           current_task_index := none }

/-- TaskScheduler.execute_current_task_step: if unpaused, select a task
when none is current, then execute the current task when it is marked
running. -/
def TaskScheduler.execute_current_task_step (s : TaskScheduler) (now : Nat)
    (o : ActionOutcome) : TaskScheduler :=
  if s.is_paused then s
  else
    let s1 :=
      match s.current_task_index with
      | none => s.select_next_task now
      | some _ => s
    match s1.current_task_index with
    | none => s1
    | some i =>
      match s1.tasks[i]? with
      | some t => if t.is_running then s1.execute_task i o else s1
      | none => s1

def TaskScheduler.pause_scheduler (s : TaskScheduler) : TaskScheduler :=
  { s with is_paused := true }

def TaskScheduler.resume_scheduler (s : TaskScheduler) : TaskScheduler :=
  { s with is_paused := false }

/-- TaskScheduler.reset: stops the current task, zeroes every task's
last-run stamp, step counter and failure counter, clears the current
slot and the scheduler pause flag.  Python would raise IndexError on a
stale out-of-range current index; updAt leaves the list unchanged
there, and the two agree whenever the index is in range or absent. -/
def TaskScheduler.reset (s : TaskScheduler) : TaskScheduler :=
  let s1 :=
    match s.current_task_index with
    | some i => { s with tasks := updAt s.tasks i (fun t => { t with is_running := false }) }
    | none => s
  { tasks := s1.tasks.map (fun t =>
      { t with last_execution_time := 0, current_step := 0, consecutive_failures := 0 }),
    is_paused := false,
    current_task_index := none }

def TaskScheduler.skip_current_task (s : TaskScheduler) : TaskScheduler × Bool :=
  match s.current_task_index with
  | some i =>
    ({ s with tasks := updAt s.tasks i (fun t => { t with is_running := false }),
              current_task_index := none }, true)
  | none => (s, false)

/-- One administrative or tick-level operation on the scheduler. -/
inductive SchedOp where
  | step (now : Nat) (o : ActionOutcome)
  | add (id name : String) (priority : Int) (im isec : Option Nat)
  | remove (task_id : String)
  | restart (task_id : String)
  | skip
  | reset
  | pauseSched
  | resumeSched
  | pauseTask (task_id : String)
  | resumeTask (task_id : String)
deriving DecidableEq

def TaskScheduler.applyOp (s : TaskScheduler) : SchedOp → TaskScheduler
  | .step now o => s.execute_current_task_step now o
  | .add id name p im isec => s.add_task id name p im isec
  | .remove tid => (s.remove_task tid).1
  | .restart tid => (s.restart_task tid).1
  | .skip => s.skip_current_task.1
  | .reset => s.reset
  | .pauseSched => s.pause_scheduler
  | .resumeSched => s.resume_scheduler
  | .pauseTask tid => (s.pause_task tid).1
  | .resumeTask tid => (s.resume_task tid).1

def TaskScheduler.runOps (s : TaskScheduler) : List SchedOp → TaskScheduler
  | [] => s
  | op :: ops => (s.applyOp op).runOps ops

/-- Number of tasks currently flagged running. -/
def TaskScheduler.runningCount (s : TaskScheduler) : Nat :=
  s.tasks.countP (fun t => t.is_running)

end VPbot

namespace VPbot

/-! ## C1: single-concurrency invariant of the scheduler -/

theorem Task.is_running_afterExecution (t : Task) (o : ActionOutcome) :
    (t.afterExecution o).is_running = false := by
  cases o <;> rfl

theorem countP_updAt_le_of (p : α → Bool) (f : α → α)
    (h : ∀ a, p (f a) = true → p a = true) (l : List α) (i : Nat) :
    (updAt l i f).countP p ≤ l.countP p := by
  induction l generalizing i with
  | nil => simp [updAt]
  | cons x xs ih =>
    cases i with
    | zero =>
      simp only [updAt, List.countP_cons]
      by_cases hx : p (f x)
      · simp [hx, h x hx]
      · simp only [hx, if_false, Bool.false_eq_true]
        split <;> omega
    | succ n =>
      simp only [updAt, List.countP_cons]
      have := ih n
      omega

theorem countP_map_eq_of (p : α → Bool) (g : α → α) (h : ∀ a, p (g a) = p a)
    (l : List α) : (l.map g).countP p = l.countP p := by
  induction l with
  | nil => simp
  | cons x xs ih => simp [List.countP_cons, ih, h]


theorem runningCount_step_le (s : TaskScheduler) (now : Nat) (o : ActionOutcome) :
    (s.execute_current_task_step now o).runningCount ≤ s.runningCount := by
  by_cases hp : s.is_paused
  · simp [TaskScheduler.execute_current_task_step, hp]
  · cases hc : s.current_task_index with
    | some j =>
      simp only [TaskScheduler.execute_current_task_step, hp, if_false, hc]
      cases ht : s.tasks[j]? with
      | none => simp [ht]
      | some t =>
        by_cases hr : t.is_running
        · simp only [ht, hr, if_true]
          exact countP_updAt_le (fun t => t.is_running) _
            (fun a => Task.is_running_afterExecution a o) s.tasks j
        · simp [ht, hr]
    | none =>
      simp only [TaskScheduler.execute_current_task_step, hp, if_false, hc]
      cases hf : firstIdx (fun t => t.should_run now) s.tasks with
      | none => simp [TaskScheduler.select_next_task, hf, hc]
      | some i =>
        obtain ⟨x, hx, hsr⟩ := firstIdx_eq_some _ _ _ hf
        simp only [TaskScheduler.select_next_task, hf, getElem?_updAt_self, hx,
          Option.map_some]
        simp only [TaskScheduler.execute_task, TaskScheduler.runningCount,
          updAt_updAt, if_true]
        exact countP_updAt_le (fun t => t.is_running) _
          (fun a => Task.is_running_afterExecution _ o) s.tasks i

theorem runningCount_applyOp_le (s : TaskScheduler) (op : SchedOp) :
    (s.applyOp op).runningCount ≤ s.runningCount := by
  cases op with
  | step now o => exact runningCount_step_le s now o
  | add id name p im isec =>
    simp only [TaskScheduler.applyOp, TaskScheduler.add_task]
    split
    · exact le_refl _
    · show (List.insertionSort taskPrioGE
          (s.tasks ++ [Task.init id name p im isec])).countP (fun t => t.is_running)
        ≤ s.tasks.countP (fun t => t.is_running)
      rw [(List.perm_insertionSort taskPrioGE _).countP_eq]
      simp [List.countP_append, Task.init]
  | remove tid =>
    simp only [TaskScheduler.applyOp, TaskScheduler.remove_task]
    cases hf : firstIdx (fun t => t.id = tid) s.tasks with
    | none => simp
    | some i =>
      simp only
      by_cases hcur : s.current_task_index = some i
      · simp only [hcur, if_true, TaskScheduler.runningCount]
        calc ((updAt s.tasks i fun t => { t with is_running := false }).eraseIdx i).countP
              (fun t => t.is_running)
            ≤ (updAt s.tasks i fun t => { t with is_running := false }).countP
              (fun t => t.is_running) :=
              (List.eraseIdx_sublist _ i).countP_le _
          _ ≤ s.tasks.countP (fun t => t.is_running) :=
              countP_updAt_le _ _ (fun a => rfl) s.tasks i
      · simp only [hcur, if_false, TaskScheduler.runningCount]
        exact (List.eraseIdx_sublist s.tasks i).countP_le _
  | restart tid =>
    simp only [TaskScheduler.applyOp, TaskScheduler.restart_task]
    cases hf : firstIdx (fun t => t.id = tid) s.tasks with
    | none => simp
    | some i =>
      simp only [TaskScheduler.runningCount]
      exact countP_updAt_le _ _ (fun a => rfl) s.tasks i
  | skip =>
    simp only [TaskScheduler.applyOp, TaskScheduler.skip_current_task]
    cases hc : s.current_task_index with
    | none => simp
    | some i =>
      simp only [TaskScheduler.runningCount]
      exact countP_updAt_le _ _ (fun a => rfl) s.tasks i
  | reset =>
    simp only [TaskScheduler.applyOp, TaskScheduler.reset]
    cases hc : s.current_task_index with
    | none =>
      simp only [TaskScheduler.runningCount]
      exact le_of_eq (countP_map_eq_of (fun t => t.is_running)
        (fun t => { t with last_execution_time := 0, current_step := 0,
                           consecutive_failures := 0 }) (fun a => rfl) s.tasks)
    | some i =>
      simp only [TaskScheduler.runningCount]
      have h1 := countP_map_eq_of (fun t : Task => t.is_running)
        (fun t : Task => { t with last_execution_time := 0, current_step := 0, consecutive_failures := 0 })
        (fun a => rfl)
        (updAt s.tasks i (fun t : Task => { t with is_running := false }))
      rw [h1]
      exact countP_updAt_le _ _ (fun a => rfl) s.tasks i
  | pauseSched => simp [TaskScheduler.applyOp, TaskScheduler.pause_scheduler,
      TaskScheduler.runningCount]
  | resumeSched => simp [TaskScheduler.applyOp, TaskScheduler.resume_scheduler,
      TaskScheduler.runningCount]
  | pauseTask tid =>
    simp only [TaskScheduler.applyOp, TaskScheduler.pause_task]
    cases hf : firstIdx (fun t => t.id = tid) s.tasks with
    | none => simp
    | some i =>
      simp only [TaskScheduler.runningCount]
      exact countP_updAt_le_of (fun t => t.is_running)
        (fun t => { t with paused := true }) (fun a h => h) s.tasks i
  | resumeTask tid =>
    simp only [TaskScheduler.applyOp, TaskScheduler.resume_task]
    cases hf : firstIdx (fun t => t.id = tid) s.tasks with
    | none => simp
    | some i =>
      simp only [TaskScheduler.runningCount]
      exact countP_updAt_le_of (fun t => t.is_running)
        (fun t => { t with paused := false }) (fun a h => h) s.tasks i

/-- C1: at most one Task in the scheduler's list has is_running = true at
any instant: starting from any state in which at most one task is flagged
running, any sequence of scheduler operations (execute_current_task_step,
add_task, remove_task, restart_task, skip_current_task, reset, and the
pause and resume calls) never results in two Tasks simultaneously flagged
is_running = true. -/
theorem c1_at_most_one_running (s : TaskScheduler) (ops : List SchedOp)
    (h : s.runningCount ≤ 1) : (s.runOps ops).runningCount ≤ 1 := by
  induction ops generalizing s with
  | nil => exact h
  | cons op ops ih =>
    exact ih (s.applyOp op) (le_trans (runningCount_applyOp_le s op) h)

/-- Witness for c1_at_most_one_running at a concrete scheduler state with
one running task and a concrete operation sequence. -/
theorem c1_at_most_one_running_witness :
    (TaskScheduler.mk
      [Task.mk "a" "A" 80 60 0 true 1 0 3 0 1 false,
       Task.mk "b" "B" 70 0 0 false 0 0 3 0 1 false] false (some 0)).runningCount ≤ 1
    ∧ ((TaskScheduler.mk
      [Task.mk "a" "A" 80 60 0 true 1 0 3 0 1 false,
       Task.mk "b" "B" 70 0 0 false 0 0 3 0 1 false] false (some 0)).runOps
        [SchedOp.step 100 ActionOutcome.failure,
         SchedOp.add "c" "C" 90 none (some 5),
         SchedOp.step 200 ActionOutcome.success,
         SchedOp.reset,
         SchedOp.remove "a",
         SchedOp.skip]).runningCount ≤ 1 :=
  ⟨by decide,
   c1_at_most_one_running _ _ (by decide)⟩

/-- C10: when the scheduler selects a task it stamps the selection time
into last_execution_time and bumps execution_count before the unit of
work runs; failure or an exception does not roll the stamp back, so the
task satisfies should_run again only once its full interval has elapsed
from the start of the attempt, never immediately. -/
theorem c10_timestamp_set_on_selection
    (s : TaskScheduler) (now : Nat) (o : ActionOutcome) (i : Nat) (t0 : Task)
    (hp : s.is_paused = false)
    (hc : s.current_task_index = none)
    (hf : firstIdx (fun t => t.should_run now) s.tasks = some i)
    (ht : s.tasks[i]? = some t0) :
    (s.execute_current_task_step now o).tasks[i]? =
      some { t0 with is_running := false,
                     last_execution_time := now,
                     execution_count := t0.execution_count + 1,
                     current_step := 0,
                     consecutive_failures :=
                       match o with
                       | .success => 0
                       | .failure => t0.consecutive_failures + 1
                       | .raises => t0.consecutive_failures + 1 }
    ∧ ∀ later : Nat, later - now < t0.interval_seconds →
        ∀ t1, (s.execute_current_task_step now o).tasks[i]? = some t1 →
          t1.should_run later = false := by
  have hstep : (s.execute_current_task_step now o).tasks =
      updAt s.tasks i (fun t => Task.afterExecution
        { t with is_running := true, last_execution_time := now,
                 execution_count := t.execution_count + 1, current_step := 0 } o) := by
    simp [TaskScheduler.execute_current_task_step, hp, hc,
      TaskScheduler.select_next_task, hf, getElem?_updAt_self, ht,
      TaskScheduler.execute_task, updAt_updAt, Function.comp_def]
  have hval : (s.execute_current_task_step now o).tasks[i]? =
      some (Task.afterExecution
        { t0 with is_running := true, last_execution_time := now,
                  execution_count := t0.execution_count + 1, current_step := 0 } o) := by
    rw [hstep, getElem?_updAt_self, ht]
    rfl
  constructor
  · rw [hval]
    cases o <;> rfl
  · intro later hlater t1 ht1
    rw [hval] at ht1
    injection ht1 with ht1e
    subst ht1e
    cases o <;>
      · by_cases hq : t0.paused
        · simp [Task.afterExecution, Task.should_run, hq]
        · simp [Task.afterExecution, Task.should_run, hq]
          omega

/-- Witness for c10_timestamp_set_on_selection: a concrete task selected
at time 100 whose action fails keeps last_execution_time = 100 and is
still ineligible at time 130 (interval 60). -/
theorem c10_timestamp_set_on_selection_witness :
    ((TaskScheduler.mk [Task.mk "a" "A" 80 60 10 false 0 0 3 0 1 false]
        false none).execute_current_task_step 100 ActionOutcome.failure).tasks[0]? =
      some (Task.mk "a" "A" 80 60 100 false 1 1 3 0 1 false)
    ∧ Task.should_run (Task.mk "a" "A" 80 60 100 false 1 1 3 0 1 false) 130 = false :=
  have h := c10_timestamp_set_on_selection
    (TaskScheduler.mk [Task.mk "a" "A" 80 60 10 false 0 0 3 0 1 false] false none)
    100 ActionOutcome.failure 0 (Task.mk "a" "A" 80 60 10 false 0 0 3 0 1 false)
    rfl rfl (by decide) rfl
  ⟨h.1, h.2 130 (by decide) _ h.1⟩

/-- C6 fails as stated: reset() does not clear a task's individual
paused flag, so a task paused via pause_task is still not eligible to
run right after reset even though its last-run stamp was zeroed and the
current time (1000) exceeds its interval (1). -/
theorem c6_counterexample :
    ((TaskScheduler.mk [Task.mk "a" "A" 80 1 50 false 0 2 3 0 1 true]
        true none).reset).is_paused = false
    ∧ ((TaskScheduler.mk [Task.mk "a" "A" 80 1 50 false 0 2 3 0 1 true]
        true none).reset).tasks.map (fun t => t.last_execution_time) = [0]
    ∧ ((TaskScheduler.mk [Task.mk "a" "A" 80 1 50 false 0 2 3 0 1 true]
        true none).reset).tasks.map (fun t => t.should_run 1000) = [false] := by
  decide

/-- C6 (amended): after reset() the current-task slot is cleared and the
task it pointed at is no longer running, every task's last-run stamp,
step counter and consecutive-failure counter are zeroed, and the
scheduler pause flag is cleared; every task that is not individually
paused and not flagged running is then eligible at any time at or past
its interval.  Individually paused tasks stay paused and ineligible. -/
theorem c6_amended_reset
    (s : TaskScheduler) (now : Nat) :
    (s.reset).current_task_index = none
    ∧ (s.reset).is_paused = false
    ∧ (∀ t, t ∈ (s.reset).tasks →
        t.last_execution_time = 0 ∧ t.current_step = 0 ∧ t.consecutive_failures = 0
        ∧ (t.paused = false → t.is_running = false → t.interval_seconds ≤ now →
            t.should_run now = true))
    ∧ (∀ i t, s.current_task_index = some i → (s.reset).tasks[i]? = some t →
        t.is_running = false) := by
  refine ⟨rfl, rfl, ?_, ?_⟩
  · intro t htm
    simp only [TaskScheduler.reset] at htm
    have hfields : t.last_execution_time = 0 ∧ t.current_step = 0
        ∧ t.consecutive_failures = 0 := by
      rcases List.mem_map.mp htm with ⟨t', _, rfl⟩
      exact ⟨rfl, rfl, rfl⟩
    refine ⟨hfields.1, hfields.2.1, hfields.2.2, ?_⟩
    intro hq hr hint
    simp [Task.should_run, hq, hr, hfields.1, hint]
  · intro i t hi htv
    simp only [TaskScheduler.reset, hi] at htv
    rw [List.getElem?_map, getElem?_updAt_self] at htv
    cases hx : s.tasks[i]? with
    | none => rw [hx] at htv; simp at htv
    | some y =>
      rw [hx] at htv
      injection htv with htve
      subst htve
      rfl

/-- Witness for c6_amended_reset at a concrete scheduler with a running
current task and one paused task. -/
theorem c6_amended_reset_witness :
    let s := TaskScheduler.mk
      [Task.mk "a" "A" 80 60 40 true 2 1 3 1 1 false,
       Task.mk "b" "B" 70 30 40 false 0 2 3 0 1 true] true (some 0)
    (s.reset).current_task_index = none
    ∧ (s.reset).is_paused = false
    ∧ (∀ t, t ∈ (s.reset).tasks →
        t.last_execution_time = 0 ∧ t.current_step = 0 ∧ t.consecutive_failures = 0
        ∧ (t.paused = false → t.is_running = false → t.interval_seconds ≤ 100 →
            t.should_run 100 = true))
    ∧ (∀ i t, s.current_task_index = some i → (s.reset).tasks[i]? = some t →
        t.is_running = false) :=
  c6_amended_reset
    (TaskScheduler.mk
      [Task.mk "a" "A" 80 60 40 true 2 1 3 1 1 false,
       Task.mk "b" "B" 70 30 40 false 0 2 3 0 1 true] true (some 0)) 100

/-! ## Monitor manager (src/modules/monitor_manager.py)

A pattern's detector call on the current frame is opaque image code;
its observable outcome on the frame under scan is the data of the
pattern (has_detector: detector and template both present; match_found:
the detector reported a match).  A monitor's handler call is opaque;
its outcome is supplied per monitor name by a HandlerResult oracle. -/

structure Pattern where
  has_detector : Bool
  match_found : Bool
deriving DecidableEq

structure Monitor where
  name : String
  priority : Int
  patterns : List Pattern
  check_interval : Nat
  is_active : Bool
  last_check_time : Nat
  last_match_time : Nat
deriving DecidableEq

def Monitor.should_check (m : Monitor) (now : Nat) : Bool :=
  if !m.is_active then false
  else decide (m.check_interval ≤ now - m.last_check_time)

/-- MonitorManager._check_patterns: first pattern having both a
detector and a template whose detector reports a match wins; none when
no pattern matches. -/
def Monitor.check_patterns (m : Monitor) : Option Nat :=
  firstIdx (fun p => p.has_detector && p.match_found) m.patterns

structure MonitorManager where
  global_monitors : List Monitor
  is_paused : Bool
deriving DecidableEq

/-- Descending-priority comparison used by the Python
global_monitors.sort(key=priority, reverse=True); stable, so insertion
sort reproduces it. -/
def monitorPrioGE (a b : Monitor) : Prop := b.priority ≤ a.priority

instance : DecidableRel monitorPrioGE := fun a b =>
  inferInstanceAs (Decidable (b.priority ≤ a.priority))

instance : IsTotal Monitor monitorPrioGE :=
  ⟨fun a b => le_total b.priority a.priority⟩

instance : IsTrans Monitor monitorPrioGE :=
  ⟨fun _ _ _ h1 h2 => le_trans h2 h1⟩

def MonitorManager.add_global_monitor (mm : MonitorManager) (name : String)
    (priority : Int) (patterns : List Pattern) (check_interval : Nat) :
    MonitorManager :=
  if mm.global_monitors.any (fun m => m.name = name) then mm
  else
    let appended := mm.global_monitors ++
      [Monitor.mk name priority patterns check_interval true 0 0]
    { mm with global_monitors := List.insertionSort monitorPrioGE appended }

/-- Outcome of a monitor.handler(match_info) call: truthy, falsy, or
raising. -/
inductive HandlerResult where
  | success
  | failure
  | raises
deriving DecidableEq

/-- Loop of MonitorManager.check_global_monitors over the monitor list:
skip monitors not due; stamp last_check_time on due ones; skip empty
pattern lists; on the first pattern match stamp last_match_time, invoke
the handler and return handled = true whether the handler succeeds,
returns failure, or raises (the try/except at monitor_manager.py lines
157-172 catches the exception and still returns True).  Returns
(handled, updated monitor list, names whose handler was invoked). -/
def checkMonitorsLoop (env : String → HandlerResult) (now : Nat) :
    List Monitor → Bool × List Monitor × List String
  | [] => (false, [], [])
  | m :: rest =>
    if !(m.should_check now) then
      let r := checkMonitorsLoop env now rest
      (r.1, m :: r.2.1, r.2.2)
    else
      let m1 := { m with last_check_time := now }
      if m1.patterns.isEmpty then
        let r := checkMonitorsLoop env now rest
        (r.1, m1 :: r.2.1, r.2.2)
      else
        match m1.check_patterns with
        | none =>
          let r := checkMonitorsLoop env now rest
          (r.1, m1 :: r.2.1, r.2.2)
        | some _ =>
          let m2 := { m1 with last_match_time := now }
          match env m.name with
          | .success => (true, m2 :: rest, [m.name])
          | .failure => (true, m2 :: rest, [m.name])
          | .raises => (true, m2 :: rest, [m.name])

def MonitorManager.check_global_monitors (mm : MonitorManager)
    (env : String → HandlerResult) (now : Nat) :
    Bool × MonitorManager × List String :=
  if mm.is_paused then (false, mm, [])
  else
    let r := checkMonitorsLoop env now mm.global_monitors
    (r.1, { mm with global_monitors := r.2.1 }, r.2.2)

/-- A monitor fires this tick when it is due and some pattern of its
list reports a match. -/
def Monitor.fires (m : Monitor) (now : Nat) : Bool :=
  m.should_check now && m.check_patterns.isSome

theorem Monitor.check_patterns_stamp (m : Monitor) (now : Nat) :
    Monitor.check_patterns { m with last_check_time := now } =
      Monitor.check_patterns m := rfl

theorem checkMonitorsLoop_fires (env : String → HandlerResult) (now : Nat)
    (l : List Monitor) (i : Nat) (m0 : Monitor)
    (hf : firstIdx (fun m => m.fires now) l = some i)
    (hm : l[i]? = some m0) :
    (checkMonitorsLoop env now l).1 = true
    ∧ (checkMonitorsLoop env now l).2.2 = [m0.name] := by
  induction l generalizing i with
  | nil => simp [firstIdx] at hf
  | cons m rest ih =>
    by_cases hfire : m.fires now
    · simp [firstIdx, hfire] at hf
      subst hf
      simp only [List.getElem?_cons_zero] at hm
      injection hm with hm0
      subst hm0
      have hparts : m.should_check now = true ∧ (Monitor.check_patterns m).isSome = true := by
        simpa [Monitor.fires] using hfire
      cases hv : Monitor.check_patterns m with
      | none => rw [hv] at hparts; simp at hparts
      | some k =>
        have hne : ({ m with last_check_time := now } : Monitor).patterns.isEmpty = false := by
          cases hps : m.patterns with
          | nil =>
            rw [Monitor.check_patterns, hps] at hv
            simp [firstIdx] at hv
          | cons p ps => simp [hps]
        have hstamp : Monitor.check_patterns { m with last_check_time := now } = some k := by
          rw [Monitor.check_patterns_stamp, hv]
        simp only [checkMonitorsLoop, hparts.1, Bool.not_true, Bool.false_eq_true,
          if_false, hne, hstamp]
        cases env m.name <;> exact ⟨rfl, rfl⟩
    · simp [firstIdx, hfire] at hf
      obtain ⟨k, hk, hki⟩ := hf
      subst hki
      simp only [List.getElem?_cons_succ] at hm
      obtain ⟨ih1, ih2⟩ := ih k hk hm
      by_cases hsc : m.should_check now
      · have hcp : Monitor.check_patterns m = none := by
          cases hb : Monitor.check_patterns m with
          | none => rfl
          | some v => exact absurd (by simp [Monitor.fires, hsc, hb]) hfire
        have hstamp : Monitor.check_patterns { m with last_check_time := now } = none := by
          rw [Monitor.check_patterns_stamp, hcp]
        by_cases hemp : ({ m with last_check_time := now } : Monitor).patterns.isEmpty
        · simp only [checkMonitorsLoop, hsc, Bool.not_true, Bool.false_eq_true,
            if_false, hemp, if_true]
          exact ⟨ih1, ih2⟩
        · simp only [checkMonitorsLoop, hsc, Bool.not_true, Bool.false_eq_true,
            if_false, Bool.eq_false_iff.mpr hemp, hstamp]
          exact ⟨ih1, ih2⟩
      · simp only [checkMonitorsLoop, Bool.eq_false_iff.mpr hsc, Bool.not_false, if_true]
        exact ⟨ih1, ih2⟩

theorem checkMonitorsLoop_env_irrelevant (env env' : String → HandlerResult)
    (now : Nat) (l : List Monitor) :
    checkMonitorsLoop env now l = checkMonitorsLoop env' now l := by
  induction l with
  | nil => rfl
  | cons m rest ih =>
    simp only [checkMonitorsLoop, ih]
    cases env m.name <;> cases env' m.name <;> rfl

/-- C2: monitors are kept in descending priority order by registration,
and on a sweep with the registry not paused the handler of the first
due monitor whose pattern list reports a match is the only handler
invoked; the sweep returns handled = true and never reaches a
lower-priority monitor that tick.  With M1(priority 100) and
M2(priority 70) both due and matching, only M1's handler runs. -/
theorem c2_priority_sweep_first_match_only :
    (∀ (mm : MonitorManager) (name : String) (priority : Int)
        (patterns : List Pattern) (check_interval : Nat),
      List.Sorted monitorPrioGE mm.global_monitors →
      List.Sorted monitorPrioGE
        ((mm.add_global_monitor name priority patterns check_interval).global_monitors))
    ∧ (∀ (mm : MonitorManager) (env : String → HandlerResult) (now i : Nat)
        (m0 : Monitor),
      mm.is_paused = false →
      firstIdx (fun m => m.fires now) mm.global_monitors = some i →
      mm.global_monitors[i]? = some m0 →
      (mm.check_global_monitors env now).1 = true
      ∧ (mm.check_global_monitors env now).2.2 = [m0.name])
    ∧ ((MonitorManager.mk
          [Monitor.mk "M1" 100 [Pattern.mk true true] 10 true 0 0,
           Monitor.mk "M2" 70 [Pattern.mk true true] 10 true 0 0]
          false).check_global_monitors (fun _ => HandlerResult.success) 50).2.2 = ["M1"]
      ∧ ((MonitorManager.mk
          [Monitor.mk "M1" 100 [Pattern.mk true true] 10 true 0 0,
           Monitor.mk "M2" 70 [Pattern.mk true true] 10 true 0 0]
          false).check_global_monitors (fun _ => HandlerResult.success) 50).1 = true := by
  refine ⟨?_, ?_, by decide, by decide⟩
  · intro mm name priority patterns ci hsorted
    unfold MonitorManager.add_global_monitor
    split
    · exact hsorted
    · exact List.sorted_insertionSort monitorPrioGE _
  · intro mm env now i m0 hpause hf hm
    have h := checkMonitorsLoop_fires env now mm.global_monitors i m0 hf hm
    constructor
    · simp [MonitorManager.check_global_monitors, hpause, h.1]
    · simp [MonitorManager.check_global_monitors, hpause, h.2]

/-- Witness for c2_priority_sweep_first_match_only at a concrete
registry: M1(100) and M2(70) both due and matching at tick 50, with a
handler that reports failure; only M1's handler is invoked. -/
theorem c2_priority_sweep_first_match_only_witness :
    List.Sorted monitorPrioGE
      (((MonitorManager.mk [] false).add_global_monitor "M1" 100
          [Pattern.mk true true] 10).global_monitors)
    ∧ (((MonitorManager.mk
          [Monitor.mk "M1" 100 [Pattern.mk true true] 10 true 0 0,
           Monitor.mk "M2" 70 [Pattern.mk true true] 10 true 0 0]
          false).check_global_monitors (fun _ => HandlerResult.failure) 50).1 = true
        ∧ ((MonitorManager.mk
          [Monitor.mk "M1" 100 [Pattern.mk true true] 10 true 0 0,
           Monitor.mk "M2" 70 [Pattern.mk true true] 10 true 0 0]
          false).check_global_monitors (fun _ => HandlerResult.failure) 50).2.2 = ["M1"]) :=
  ⟨c2_priority_sweep_first_match_only.1 (MonitorManager.mk [] false) "M1" 100
      [Pattern.mk true true] 10 (by decide),
   c2_priority_sweep_first_match_only.2.1 (MonitorManager.mk
      [Monitor.mk "M1" 100 [Pattern.mk true true] 10 true 0 0,
       Monitor.mk "M2" 70 [Pattern.mk true true] 10 true 0 0] false)
      (fun _ => HandlerResult.failure) 50 0
      (Monitor.mk "M1" 100 [Pattern.mk true true] 10 true 0 0)
      rfl (by decide) rfl⟩

/-- C3: the sweep result is completely independent of the handler's
outcome: a handler that returns failure or raises (the raise is caught
by the try/except in check_global_monitors and never propagates) still
yields handled = true whenever a due monitor's pattern matched. -/
theorem c3_handler_failure_still_handled :
    (∀ (mm : MonitorManager) (env env' : String → HandlerResult) (now : Nat),
      mm.check_global_monitors env now = mm.check_global_monitors env' now)
    ∧ (∀ (mm : MonitorManager) (env : String → HandlerResult) (now i : Nat),
      mm.is_paused = false →
      firstIdx (fun m => m.fires now) mm.global_monitors = some i →
      (mm.check_global_monitors env now).1 = true) := by
  constructor
  · intro mm env env' now
    unfold MonitorManager.check_global_monitors
    rw [checkMonitorsLoop_env_irrelevant env env' now]
  · intro mm env now i hpause hf
    obtain ⟨m0, hm, _⟩ := firstIdx_eq_some _ _ _ hf
    have h := checkMonitorsLoop_fires env now mm.global_monitors i m0 hf hm
    simp [MonitorManager.check_global_monitors, hpause, h.1]

/-- Witness for c3_handler_failure_still_handled: a concrete sweep whose
only handler raises produces the same output as one whose handler
succeeds, and still reports handled = true. -/
theorem c3_handler_failure_still_handled_witness :
    ((MonitorManager.mk [Monitor.mk "M1" 100 [Pattern.mk true true] 10 true 0 0]
        false).check_global_monitors (fun _ => HandlerResult.raises) 50
      = (MonitorManager.mk [Monitor.mk "M1" 100 [Pattern.mk true true] 10 true 0 0]
        false).check_global_monitors (fun _ => HandlerResult.success) 50)
    ∧ ((MonitorManager.mk [Monitor.mk "M1" 100 [Pattern.mk true true] 10 true 0 0]
        false).check_global_monitors (fun _ => HandlerResult.raises) 50).1 = true :=
  ⟨c3_handler_failure_still_handled.1
      (MonitorManager.mk [Monitor.mk "M1" 100 [Pattern.mk true true] 10 true 0 0] false)
      (fun _ => HandlerResult.raises) (fun _ => HandlerResult.success) 50,
   c3_handler_failure_still_handled.2
      (MonitorManager.mk [Monitor.mk "M1" 100 [Pattern.mk true true] 10 true 0 0] false)
      (fun _ => HandlerResult.raises) 50 0 rfl (by decide)⟩

/-! ## Image detector (src/modules/image_detector.py)

An image is a rectangular list of pixel rows; shape[:2] is
(row count, length of the first row).  numpy slicing img[y:y+h, x:x+w]
clamps out-of-range bounds exactly as drop/take do.  The physical
screen content at the instant of a capture call is a parameter (what a
successful ImageGrab.grab() returns); the try/except around the pure
crop arithmetic can only fire on a failing grab, which is orthogonal
to the cache policy in question. -/

abbrev Img := List (List Nat)

/-- numpy img[y:y+height, x:x+width].copy(). -/
def cropImg (img : Img) (x y width height : Nat) : Img :=
  ((img.drop y).take height).map (fun row => (row.drop x).take width)

def imgHeight (img : Img) : Nat := img.length

def imgWidth (img : Img) : Nat := (img.headD []).length

/-- PIL ImageGrab.grab(bbox=(a, b, c, d)) reads the bbox as (left,
upper, right, lower); get_screen_image passes the region tuple (x, y,
width, height) straight through, so a fresh region grab covers rows
y..height-1 and columns x..width-1 of the physical screen. -/
def bboxGrab (phys : Img) (x y w h : Nat) : Img :=
  ((phys.drop y).take (h - y)).map (fun row => (row.drop x).take (w - x))

structure Region where
  x : Nat
  y : Nat
  width : Nat
  height : Nat
deriving DecidableEq

structure ImageDetector where
  last_screen_image : Option Img
  last_full_screen_time : Nat
  screen_refresh_interval : Nat
deriving DecidableEq

/-- ImageDetector.get_screen_image: a region request with a cached full
frame and no force_refresh crops the cache (whatever its age) when the
region origin is inside the cache and the clipped size is positive;
otherwise the refresh decision uses
force_refresh or missing cache or now - last_full_screen_time >
screen_refresh_interval, and a region request on the no-refresh path
takes a fresh full grab, caches it and crops it.  Returns the image
and the updated detector state. -/
def ImageDetector.get_screen_image (d : ImageDetector) (phys : Img)
    (region : Option Region) (force_refresh : Bool) (now : Nat) :
    Option Img × ImageDetector :=
  let cropped : Option Img :=
    match region, d.last_screen_image, force_refresh with
    | some r, some cache, false =>
      let max_h := imgHeight cache
      let max_w := imgWidth cache
      if r.x < max_w ∧ r.y < max_h then
        let width := min r.width (max_w - r.x)
        let height := min r.height (max_h - r.y)
        if 0 < width ∧ 0 < height then
          some (cropImg cache r.x r.y width height)
        else none
      else none
    | _, _, _ => none
  match cropped with
  | some img => (some img, d)
  | none =>
    let need_refresh := force_refresh || d.last_screen_image.isNone ||
      decide (d.screen_refresh_interval < now - d.last_full_screen_time)
    if need_refresh then
      match region with
      | some r => (some (bboxGrab phys r.x r.y r.width r.height), d)
      | none =>
        (some phys,
         { d with last_screen_image := some phys, last_full_screen_time := now })
    else
      match region with
      | none => (d.last_screen_image, d)
      | some r =>
        (some (cropImg phys r.x r.y r.width r.height),
         { d with last_screen_image := some phys, last_full_screen_time := now })

/-- C4 fails as stated: with a cached full frame that is stale
(now - last_full_screen_time exceeds the refresh interval) a region
request is still served by cropping the stale cache, and no new full
capture is taken; the claim's "only when that frame is fresh, otherwise
triggering a new full capture" does not hold.  Here the cache holds
pixel 1, the live screen holds pixel 2, the interval is 5 and 100 time
units have passed. -/
theorem c4_counterexample :
    (ImageDetector.mk (some [[1]]) 0 5).screen_refresh_interval <
        100 - (ImageDetector.mk (some [[1]]) 0 5).last_full_screen_time
    ∧ ((ImageDetector.mk (some [[1]]) 0 5).get_screen_image [[2]]
        (some (Region.mk 0 0 1 1)) false 100).1 = some [[1]]
    ∧ ((ImageDetector.mk (some [[1]]) 0 5).get_screen_image [[2]]
        (some (Region.mk 0 0 1 1)) false 100).1 ≠ some (cropImg [[2]] 0 0 1 1)
    ∧ ((ImageDetector.mk (some [[1]]) 0 5).get_screen_image [[2]]
        (some (Region.mk 0 0 1 1)) false 100).2 = ImageDetector.mk (some [[1]]) 0 5 := by
  decide

/-- C4 (amended): a full-frame request reuses the cached capture while
now - last_full_screen_time is at most the refresh interval (unless
force_refresh); a region request with a cached frame present, an
in-bounds origin and a positive clipped size is served by cropping the
cached frame regardless of the frame's age, with a new full capture
taken only when the cache is missing, force_refresh is set, or the
bounds guard fails; consequently, within the refresh window, a region
capture is pixel-identical to cropping the concurrently returned full
capture. -/
theorem c4_amended_cache_policy :
    (∀ (d : ImageDetector) (phys cache : Img) (now : Nat),
      d.last_screen_image = some cache →
      now - d.last_full_screen_time ≤ d.screen_refresh_interval →
      d.get_screen_image phys none false now = (some cache, d))
    ∧ (∀ (d : ImageDetector) (phys cache : Img) (r : Region) (now : Nat),
      d.last_screen_image = some cache →
      r.x < imgWidth cache → r.y < imgHeight cache →
      0 < min r.width (imgWidth cache - r.x) →
      0 < min r.height (imgHeight cache - r.y) →
      d.get_screen_image phys (some r) false now =
        (some (cropImg cache r.x r.y (min r.width (imgWidth cache - r.x))
          (min r.height (imgHeight cache - r.y))), d))
    ∧ (∀ (d : ImageDetector) (phys cache : Img) (r : Region) (now : Nat),
      d.last_screen_image = some cache →
      now - d.last_full_screen_time ≤ d.screen_refresh_interval →
      r.x < imgWidth cache → r.y < imgHeight cache →
      0 < min r.width (imgWidth cache - r.x) →
      0 < min r.height (imgHeight cache - r.y) →
      (d.get_screen_image phys (some r) false now).1 =
        ((d.get_screen_image phys none false now).1).map (fun img =>
          cropImg img r.x r.y (min r.width (imgWidth cache - r.x))
            (min r.height (imgHeight cache - r.y)))) := by
  have hfull : ∀ (d : ImageDetector) (phys cache : Img) (now : Nat),
      d.last_screen_image = some cache →
      now - d.last_full_screen_time ≤ d.screen_refresh_interval →
      d.get_screen_image phys none false now = (some cache, d) := by
    intro d phys cache now hcache hfresh
    have hle : ¬ (d.screen_refresh_interval < now - d.last_full_screen_time) := by omega
    simp [ImageDetector.get_screen_image, hcache, hle]
  have hregion : ∀ (d : ImageDetector) (phys cache : Img) (r : Region) (now : Nat),
      d.last_screen_image = some cache →
      r.x < imgWidth cache → r.y < imgHeight cache →
      0 < min r.width (imgWidth cache - r.x) →
      0 < min r.height (imgHeight cache - r.y) →
      d.get_screen_image phys (some r) false now =
        (some (cropImg cache r.x r.y (min r.width (imgWidth cache - r.x))
          (min r.height (imgHeight cache - r.y))), d) := by
    intro d phys cache r now hcache hx hy hw hh
    simp [ImageDetector.get_screen_image, hcache, hx, hy, hw, hh]
  refine ⟨hfull, hregion, ?_⟩
  intro d phys cache r now hcache hfresh hx hy hw hh
  rw [hfull d phys cache now hcache hfresh, hregion d phys cache r now hcache hx hy hw hh]
  rfl

/-- Witness for c4_amended_cache_policy at a concrete 2 x 2 cached
frame within the refresh window. -/
theorem c4_amended_cache_policy_witness :
    (ImageDetector.mk (some [[1, 2], [3, 4]]) 0 5).get_screen_image [[9, 9], [9, 9]]
        none false 3 = (some [[1, 2], [3, 4]], ImageDetector.mk (some [[1, 2], [3, 4]]) 0 5)
    ∧ (ImageDetector.mk (some [[1, 2], [3, 4]]) 0 5).get_screen_image [[9, 9], [9, 9]]
        (some (Region.mk 1 0 1 2)) false 3 =
        (some (cropImg [[1, 2], [3, 4]] 1 0
          (min 1 (imgWidth [[1, 2], [3, 4]] - 1)) (min 2 (imgHeight [[1, 2], [3, 4]] - 0))),
         ImageDetector.mk (some [[1, 2], [3, 4]]) 0 5) :=
  ⟨c4_amended_cache_policy.1 (ImageDetector.mk (some [[1, 2], [3, 4]]) 0 5)
      [[9, 9], [9, 9]] [[1, 2], [3, 4]] 3 rfl (by decide),
   c4_amended_cache_policy.2.1 (ImageDetector.mk (some [[1, 2], [3, 4]]) 0 5)
      [[9, 9], [9, 9]] [[1, 2], [3, 4]] (Region.mk 1 0 1 2) 3 rfl
      (by decide) (by decide) (by decide) (by decide)⟩

/-! ## Template matching (ImageDetector.find_template)

The correlation surface produced by cv2.matchTemplate (the excluded
numeric core) is taken as input, a matrix of exact integer scores;
thresholds are likewise exact integers.  cv2.minMaxLoc scans row-major
and reports the first occurrence of the maximum; cv2.rectangle with
thickness -1 fills the rectangle between both corners inclusive. -/

abbrev ScoreMat := List (List Int)

/-- The maximum of a row together with the column of its first
occurrence. -/
def rowMax : List Int → Option (Int × Nat)
  | [] => none
  | v :: vs =>
    match rowMax vs with
    | none => some (v, 0)
    | some (w, j) => if v < w then some (w, j + 1) else some (v, 0)

/-- cv2.minMaxLoc maximum part: value, column and row of the first
occurrence of the matrix maximum in row-major order. -/
def matMax : ScoreMat → Option (Int × Nat × Nat)
  | [] => none
  | row :: rows =>
    match rowMax row, matMax rows with
    | none, none => none
    | some (v, x), none => some (v, x, 0)
    | none, some (w, x2, y2) => some (w, x2, y2 + 1)
    | some (v, x), some (w, x2, y2) =>
      if v < w then some (w, x2, y2 + 1) else some (v, x, 0)

def blankRow (x0 xEnd : Nat) : Nat → List Int → List Int
  | _, [] => []
  | x, v :: vs =>
    (if x0 ≤ x ∧ x ≤ xEnd then 0 else v) :: blankRow x0 xEnd (x + 1) vs

def blankRows (x0 xEnd y0 yEnd : Nat) : Nat → ScoreMat → ScoreMat
  | _, [] => []
  | y, row :: rows =>
    (if y0 ≤ y ∧ y ≤ yEnd then blankRow x0 xEnd 0 row else row)
      :: blankRows x0 xEnd y0 yEnd (y + 1) rows

/-- cv2.rectangle(result, max_loc, (max_loc + (w, h)), 0, -1): zero the
box with corners (x0, y0) and (x0 + w, y0 + h), both inclusive. -/
def blankRect (m : ScoreMat) (x0 y0 w h : Nat) : ScoreMat :=
  blankRows x0 (x0 + w) y0 (y0 + h) 0 m

/-- While-loop of find_template (image_detector.py lines 220-245): take
the best remaining peak; stop once it falls below the threshold; record
the template-center coordinate, offset by the region origin when a
region was supplied; blank the peak's bounding box and repeat while
fewer than max_results positions were found.  The fuel is the number of
result slots still open. -/
def findTemplateLoop (result : ScoreMat) (w h : Nat) (threshold : Int)
    (region : Option Region) : Nat → List (Nat × Nat)
  | 0 => []
  | k + 1 =>
    match matMax result with
    | none => []
    | some (maxv, x, y) =>
      if threshold ≤ maxv then
        let cx := x + w / 2 + (match region with | some r => r.x | none => 0)
        let cy := y + h / 2 + (match region with | some r => r.y | none => 0)
        if k = 0 then [(cx, cy)]
        else (cx, cy) :: findTemplateLoop (blankRect result x y w h) w h threshold region k
      else []

/-- Contiguous-substring test, Python's "needle in hay" on strings. -/
def listHasInfix (needle : List Char) : List Char → Bool
  | [] => decide (needle = [])
  | x :: xs => needle.isPrefixOf (x :: xs) || listHasInfix needle xs

/-- Threshold resolution of find_template lines 197-205: an explicit
threshold wins; otherwise the first configured key that occurs as a
substring of the template path; otherwise the default. -/
def lookupThreshold (template_path : String) : List (String × Int) → Option Int
  | [] => none
  | (k, v) :: rest =>
    if listHasInfix k.toList template_path.toList then some v
    else lookupThreshold template_path rest

def thresholdFor (template_path : String) (explicit : Option Int)
    (thresholds : List (String × Int)) (default_threshold : Int) : Int :=
  match explicit with
  | some t => t
  | none => (lookupThreshold template_path thresholds).getD default_threshold

/-- ImageDetector.find_template: empty on template-load or capture
failure; empty when the template exceeds the screen; otherwise the
iterative peak search.  template and screen are the shapes (rows, cols)
of the loaded template and captured screen, result the matchTemplate
surface on them. -/
def find_template (template : Option (Nat × Nat)) (screen : Option (Nat × Nat))
    (result : ScoreMat) (template_path : String) (threshold : Option Int)
    (thresholds : List (String × Int)) (default_threshold : Int)
    (region : Option Region) (max_results : Nat) : List (Nat × Nat) :=
  match template with
  | none => []
  | some (h, w) =>
    match screen with
    | none => []
    | some (sh, sw) =>
      let th := thresholdFor template_path threshold thresholds default_threshold
      if sh < h ∨ sw < w then []
      else findTemplateLoop result w h th region max_results

theorem findTemplateLoop_length_le (result : ScoreMat) (w h : Nat)
    (threshold : Int) (region : Option Region) (k : Nat) :
    (findTemplateLoop result w h threshold region k).length ≤ k := by
  induction k generalizing result with
  | zero => simp [findTemplateLoop]
  | succ n ih =>
    simp only [findTemplateLoop]
    cases matMax result with
    | none => simp
    | some v =>
      obtain ⟨maxv, x, y⟩ := v
      by_cases hth : threshold ≤ maxv
      · simp only [hth, if_true]
        cases n with
        | zero => simp
        | succ m =>
          simp only [Nat.succ_ne_zero, if_false, List.length_cons]
          exact Nat.succ_le_succ (ih _)
      · simp [hth]

theorem findTemplateLoop_region_offset (result : ScoreMat) (w h : Nat)
    (threshold : Int) (r : Region) (k : Nat) :
    findTemplateLoop result w h threshold (some r) k =
      (findTemplateLoop result w h threshold none k).map
        (fun c => (c.1 + r.x, c.2 + r.y)) := by
  induction k generalizing result with
  | zero => simp [findTemplateLoop]
  | succ n ih =>
    simp only [findTemplateLoop]
    cases matMax result with
    | none => simp
    | some v =>
      obtain ⟨maxv, x, y⟩ := v
      by_cases hth : threshold ≤ maxv
      · simp only [hth, if_true]
        cases n with
        | zero => simp
        | succ m =>
          simp [Nat.succ_ne_zero, List.map_cons, ih]
      · simp [hth]

/-- C8: find_template returns at most max_results positions, produced
by repeatedly taking the best remaining correlation peak at or above
the threshold and blanking its bounding box, stopping as soon as the
best remaining score falls below the threshold; each coordinate is the
template center, offset by the region origin when a region was
supplied.  On a surface holding exactly 2 qualifying peaks with
max_results = 3, exactly 2 non-overlapping results come back. -/
theorem c8_iterative_peak_search :
    (∀ (template screen : Option (Nat × Nat)) (result : ScoreMat)
        (path : String) (thr : Option Int) (ths : List (String × Int))
        (dflt : Int) (region : Option Region) (max_results : Nat),
      (find_template template screen result path thr ths dflt region
        max_results).length ≤ max_results)
    ∧ (∀ (template screen : Option (Nat × Nat)) (result : ScoreMat)
        (path : String) (thr : Option Int) (ths : List (String × Int))
        (dflt : Int) (r : Region) (max_results : Nat),
      find_template template screen result path thr ths dflt (some r) max_results =
        (find_template template screen result path thr ths dflt none
          max_results).map (fun c => (c.1 + r.x, c.2 + r.y)))
    ∧ (∀ (result : ScoreMat) (w h : Nat) (th maxv : Int) (x y : Nat)
        (region : Option Region) (k : Nat),
      matMax result = some (maxv, x, y) → maxv < th →
      findTemplateLoop result w h th region k = [])
    ∧ (find_template (some (1, 2)) (some (1, 5)) [[9, 0, 0, 8, 0]] "tpl"
        (some 5) [] 0 none 3 = [(1, 0), (4, 0)]
      ∧ List.Pairwise (fun a b => a.1 + 2 ≤ b.1 ∨ b.1 + 2 ≤ a.1)
          (find_template (some (1, 2)) (some (1, 5)) [[9, 0, 0, 8, 0]] "tpl"
            (some 5) [] 0 none 3)) := by
  refine ⟨?_, ?_, ?_, by decide, by decide⟩
  · intro template screen result path thr ths dflt region k
    cases template with
    | none => simp [find_template]
    | some t =>
      obtain ⟨h, w⟩ := t
      cases screen with
      | none => simp [find_template]
      | some s =>
        obtain ⟨sh, sw⟩ := s
        show (if sh < h ∨ sw < w then [] else
          findTemplateLoop result w h (thresholdFor path thr ths dflt)
            region k).length ≤ k
        split
        · simp
        · exact findTemplateLoop_length_le result w h _ region k
  · intro template screen result path thr ths dflt r k
    cases template with
    | none => simp [find_template]
    | some t =>
      obtain ⟨h, w⟩ := t
      cases screen with
      | none => simp [find_template]
      | some s =>
        obtain ⟨sh, sw⟩ := s
        show (if sh < h ∨ sw < w then [] else
            findTemplateLoop result w h (thresholdFor path thr ths dflt) (some r) k) =
          (if sh < h ∨ sw < w then [] else
            findTemplateLoop result w h (thresholdFor path thr ths dflt) none k).map
            (fun c => (c.1 + r.x, c.2 + r.y))
        split
        · simp
        · exact findTemplateLoop_region_offset result w h _ r k
  · intro result w h th maxv x y region k hm hlt
    cases k with
    | zero => rfl
    | succ n =>
      simp [findTemplateLoop, hm, show ¬ th ≤ maxv by omega]

/-- Witness for c8_iterative_peak_search at concrete surfaces: the
length bound and region offsetting at the 2-peak example, and the
early stop on a surface whose best score 3 is below threshold 5. -/
theorem c8_iterative_peak_search_witness :
    (find_template (some (1, 2)) (some (1, 5)) [[9, 0, 0, 8, 0]] "tpl"
        (some 5) [] 0 none 3).length ≤ 3
    ∧ find_template (some (1, 2)) (some (1, 5)) [[9, 0, 0, 8, 0]] "tpl"
        (some 5) [] 0 (some (Region.mk 10 20 5 1)) 3 =
      (find_template (some (1, 2)) (some (1, 5)) [[9, 0, 0, 8, 0]] "tpl"
        (some 5) [] 0 none 3).map (fun c => (c.1 + 10, c.2 + 20))
    ∧ findTemplateLoop [[3, 1]] 2 1 5 none 4 = [] :=
  ⟨c8_iterative_peak_search.1 (some (1, 2)) (some (1, 5)) [[9, 0, 0, 8, 0]] "tpl"
      (some 5) [] 0 none 3,
   c8_iterative_peak_search.2.1 (some (1, 2)) (some (1, 5)) [[9, 0, 0, 8, 0]] "tpl"
      (some 5) [] 0 (Region.mk 10 20 5 1) 3,
   c8_iterative_peak_search.2.2.1 [[3, 1]] 2 1 5 3 0 0 none 4 (by decide) (by decide)⟩

/-! ## Game process manager (src/modules/game_manager.py)

check_game_status consults the operating system through four probes
whose outcomes for one poll are data: _find_game_process (swallows its
psutil errors internally, yielding a process or None),
process.create_time() (can raise, e.g. NoSuchProcess, and
check_game_status has no try/except around it), _is_process_responding
(catches its own psutil errors, returning False), and
_find_game_window (can raise: the win32gui import or EnumWindows can
fail; again uncaught).  A raising probe is a PyResult.raises value;
the poll returns its result together with the mutated manager state,
which keeps the mutations made before a raise, as the Python object
does. -/

structure PyExc where
  msg : String
deriving DecidableEq

inductive PyResult (α : Type) where
  | ok (val : α)
  | raises (exc : PyExc)
deriving DecidableEq

inductive GameStatus where
  | not_running
  | starting
  | running_normal
  | running_idle
  | maintenance
  | remote_login
  | crash
  | frozen
  | closing
  | unknown
deriving DecidableEq

structure GameState where
  process_id : Option Nat
  start_time : Option Nat
  current_status : GameStatus
deriving DecidableEq

structure GameConfig where
  window_title : String
  max_runtime : Nat
deriving DecidableEq

structure PollEnv where
  find_process : Option Nat
  create_time : PyResult Nat
  is_responding : Bool
  find_window : PyResult Bool
deriving DecidableEq

/-- Lines 75-76: the start time used by the rest of the poll; Python's
"if not self.start_time" treats both None and 0 as missing and then
calls process.create_time(), which may raise. -/
def resolveStartTime (st : GameState) (env : PollEnv) : PyResult Nat :=
  if st.start_time.getD 0 = 0 then env.create_time
  else PyResult.ok (st.start_time.getD 0)

/-- GameProcessManager.check_game_status (lines 58-95). -/
def check_game_status (cfg : GameConfig) (st : GameState) (env : PollEnv)
    (now : Nat) : PyResult GameStatus × GameState :=
  match env.find_process with
  | none =>
    (PyResult.ok GameStatus.not_running,
     { process_id := none, start_time := none,
       current_status := GameStatus.not_running })
  | some pid =>
    let st1 := { st with process_id := some pid }
    match resolveStartTime st env with
    | PyResult.raises e => (PyResult.raises e, st1)
    | PyResult.ok t0 =>
      let st2 := { st1 with start_time := some t0 }
      if env.is_responding = false then
        (PyResult.ok GameStatus.frozen,
         { st2 with current_status := GameStatus.frozen })
      else if 0 < cfg.max_runtime ∧ cfg.max_runtime < now - t0 then
        (PyResult.ok GameStatus.running_idle,
         { st2 with current_status := GameStatus.running_idle })
      else if cfg.window_title = "" then
        (PyResult.ok GameStatus.running_idle,
         { st2 with current_status := GameStatus.running_idle })
      else
        match env.find_window with
        | PyResult.raises e => (PyResult.raises e, st2)
        | PyResult.ok true =>
          (PyResult.ok GameStatus.running_normal,
           { st2 with current_status := GameStatus.running_normal })
        | PyResult.ok false =>
          (PyResult.ok GameStatus.running_idle,
           { st2 with current_status := GameStatus.running_idle })

/-- C5 fails as stated: check_game_status has no try/except of its own,
so an error raised by process.create_time() (e.g. the process dying
between lookup and query) or by _find_game_window (e.g. the win32gui
module import failing) propagates to the caller instead of degrading the
result to Unknown. -/
theorem c5_counterexample :
    (check_game_status (GameConfig.mk "Game" 0)
      (GameState.mk none none GameStatus.unknown)
      (PollEnv.mk (some 7) (PyResult.raises (PyExc.mk "NoSuchProcess")) true
        (PyResult.ok true)) 100).1
      = PyResult.raises (PyExc.mk "NoSuchProcess")
    ∧ (check_game_status (GameConfig.mk "Game" 60)
      (GameState.mk none none GameStatus.unknown)
      (PollEnv.mk (some 7) (PyResult.ok 90) true
        (PyResult.raises (PyExc.mk "ImportError"))) 100).1
      = PyResult.raises (PyExc.mk "ImportError") := by
  decide

/-- C5 (amended): check_game_status installs no exception handling of
its own; only the probes that swallow their own errors
(_find_game_process, _is_process_responding) keep the poll total, and
their failures surface as NotRunning or Frozen.  When the two raising
probes (create_time and the window search) do not raise, no exception
escapes; and Unknown is never produced by a poll, under any probe
outcome. -/
theorem c5_amended_no_unknown_degradation :
    (∀ (cfg : GameConfig) (st : GameState) (env : PollEnv) (now t0 : Nat)
        (b : Bool),
      env.create_time = PyResult.ok t0 →
      env.find_window = PyResult.ok b →
      ∃ g, (check_game_status cfg st env now).1 = PyResult.ok g)
    ∧ (∀ (cfg : GameConfig) (st : GameState) (env : PollEnv) (now : Nat),
      (check_game_status cfg st env now).1 ≠ PyResult.ok GameStatus.unknown) := by
  constructor
  · intro cfg st env now t0 b hct hfw
    have hrs : ∃ t1, resolveStartTime st env = PyResult.ok t1 := by
      unfold resolveStartTime
      split
      · exact ⟨t0, hct⟩
      · exact ⟨st.start_time.getD 0, rfl⟩
    obtain ⟨t1, hrs⟩ := hrs
    cases hfp : env.find_process with
    | none => exact ⟨GameStatus.not_running, by simp [check_game_status, hfp]⟩
    | some pid =>
      cases hrt : env.is_responding with
      | false =>
        exact ⟨GameStatus.frozen, by simp [check_game_status, hfp, hrs, hrt]⟩
      | true =>
        by_cases hceil : 0 < cfg.max_runtime ∧ cfg.max_runtime < now - t1
        · exact ⟨GameStatus.running_idle,
            by simp [check_game_status, hfp, hrs, hrt, hceil]⟩
        · by_cases htitle : cfg.window_title = ""
          · exact ⟨GameStatus.running_idle,
              by simp [check_game_status, hfp, hrs, hrt, hceil, htitle]⟩
          · cases b with
            | false => exact ⟨GameStatus.running_idle,
                by simp [check_game_status, hfp, hrs, hrt, hceil, htitle, hfw]⟩
            | true => exact ⟨GameStatus.running_normal,
                by simp [check_game_status, hfp, hrs, hrt, hceil, htitle, hfw]⟩
  · intro cfg st env now
    unfold check_game_status
    repeat' split
    all_goals simp

/-- Witness for c5_amended_no_unknown_degradation at a concrete poll
whose raising-capable probes succeed. -/
theorem c5_amended_no_unknown_degradation_witness :
    (∃ g, (check_game_status (GameConfig.mk "Game" 60)
      (GameState.mk none none GameStatus.unknown)
      (PollEnv.mk (some 7) (PyResult.ok 90) true (PyResult.ok true)) 100).1
        = PyResult.ok g)
    ∧ (check_game_status (GameConfig.mk "Game" 60)
      (GameState.mk none none GameStatus.unknown)
      (PollEnv.mk (some 7) (PyResult.ok 90) true (PyResult.ok true)) 100).1
        ≠ PyResult.ok GameStatus.unknown :=
  ⟨c5_amended_no_unknown_degradation.1 (GameConfig.mk "Game" 60)
      (GameState.mk none none GameStatus.unknown)
      (PollEnv.mk (some 7) (PyResult.ok 90) true (PyResult.ok true)) 100 90 true
      rfl rfl,
   c5_amended_no_unknown_degradation.2 (GameConfig.mk "Game" 60)
      (GameState.mk none none GameStatus.unknown)
      (PollEnv.mk (some 7) (PyResult.ok 90) true (PyResult.ok true)) 100⟩

/-- C7: a poll finding no process returns NotRunning with both the
cached process identifier and the start time cleared; and a poll
finding a responding process whose elapsed runtime exceeds the
configured positive ceiling returns RunningIdle, with no constraint on
the window probe at all (it is never consulted on that path). -/
theorem c7_not_running_and_runtime_ceiling :
    (∀ (cfg : GameConfig) (st : GameState) (env : PollEnv) (now : Nat),
      env.find_process = none →
      check_game_status cfg st env now =
        (PyResult.ok GameStatus.not_running,
         GameState.mk none none GameStatus.not_running))
    ∧ (∀ (cfg : GameConfig) (st : GameState) (env : PollEnv) (now : Nat)
        (pid t0 : Nat),
      env.find_process = some pid →
      resolveStartTime st env = PyResult.ok t0 →
      env.is_responding = true →
      0 < cfg.max_runtime →
      cfg.max_runtime < now - t0 →
      (check_game_status cfg st env now).1 = PyResult.ok GameStatus.running_idle) := by
  constructor
  · intro cfg st env now hfp
    simp [check_game_status, hfp]
  · intro cfg st env now pid t0 hfp hrs hrt h1 h2
    simp [check_game_status, hfp, hrs, hrt, h1, h2]

/-- Witness for c7_not_running_and_runtime_ceiling: a poll with no
process clears the cached state; a poll on a responding process 70
time units old with ceiling 60 returns RunningIdle even though the
window probe would report the window visible. -/
theorem c7_not_running_and_runtime_ceiling_witness :
    check_game_status (GameConfig.mk "Game" 60)
      (GameState.mk (some 7) (some 30) GameStatus.running_normal)
      (PollEnv.mk none (PyResult.ok 30) true (PyResult.ok true)) 100 =
      (PyResult.ok GameStatus.not_running,
       GameState.mk none none GameStatus.not_running)
    ∧ (check_game_status (GameConfig.mk "Game" 60)
      (GameState.mk (some 7) (some 30) GameStatus.running_normal)
      (PollEnv.mk (some 7) (PyResult.ok 999) true (PyResult.ok true)) 100).1 =
      PyResult.ok GameStatus.running_idle :=
  ⟨c7_not_running_and_runtime_ceiling.1 (GameConfig.mk "Game" 60)
      (GameState.mk (some 7) (some 30) GameStatus.running_normal)
      (PollEnv.mk none (PyResult.ok 30) true (PyResult.ok true)) 100 rfl,
   c7_not_running_and_runtime_ceiling.2 (GameConfig.mk "Game" 60)
      (GameState.mk (some 7) (some 30) GameStatus.running_normal)
      (PollEnv.mk (some 7) (PyResult.ok 999) true (PyResult.ok true)) 100 7 30
      rfl (by decide) rfl (by decide) (by decide)⟩

/-! ## Core engine remote-control drain (src/modules/core_engine.py)

_check_remote_control_signals polls the control client's check_* and
request accessors, which test-and-clear one-shot flags; the pending
state observed by one drain is data.  Python truthiness on the string
carried by the position-control, job-removal and chat entries means
present and non-empty.  The method acts on the first pending entry in
the fixed source order and returns True, never touching a later
entry. -/

structure RemoteSignals where
  system_pause : Bool
  system_resume : Bool
  restart_system : Bool
  restart_game : Bool
  reset_scheduler : Bool
  refresh_detection : Bool
  position_control : Option String × Bool
  remove_job : Option String
  chat_request : Option String
deriving DecidableEq

def strTruthy : Option String → Bool
  | none => false
  | some s => decide (s ≠ "")

inductive RemoteAction where
  | pause_all
  | resume_all
  | restart_system
  | restart_game
  | reset_scheduler
  | refresh_detection
  | position_control (id : String) (enable : Bool)
  | remove_job (id : String)
  | chat (content : String)
deriving DecidableEq

/-- CoreEngine._check_remote_control_signals (lines 317-395): the
if-return chain over the nine signal kinds; the value reports which
handler ran and the returned boolean. -/
def check_remote_control_signals (sig : RemoteSignals) :
    Option RemoteAction × Bool :=
  if sig.system_pause then (some RemoteAction.pause_all, true)
  else if sig.system_resume then (some RemoteAction.resume_all, true)
  else if sig.restart_system then (some RemoteAction.restart_system, true)
  else if sig.restart_game then (some RemoteAction.restart_game, true)
  else if sig.reset_scheduler then (some RemoteAction.reset_scheduler, true)
  else if sig.refresh_detection then (some RemoteAction.refresh_detection, true)
  else if strTruthy sig.position_control.1 then
    (some (RemoteAction.position_control (sig.position_control.1.getD "")
      sig.position_control.2), true)
  else if strTruthy sig.remove_job then
    (some (RemoteAction.remove_job (sig.remove_job.getD "")), true)
  else if strTruthy sig.chat_request then
    (some (RemoteAction.chat (sig.chat_request.getD "")), true)
  else (none, false)

inductive SignalKind where
  | pause
  | resume
  | restartSystem
  | restartGame
  | resetScheduler
  | refreshDetection
  | positionControl
  | removeJob
  | message
deriving DecidableEq

/-- Modelled from the spec wording for refinement comparison: the
documented fixed drain order, pause and resume before the restarts,
restarts before the duty-toggle, duty-toggle before job-removal,
job-removal before the chat message, with the scheduler-reset and
detection-refresh checks in their source position. -/
def drainOrderSpec : List SignalKind :=
  [SignalKind.pause, SignalKind.resume, SignalKind.restartSystem,
   SignalKind.restartGame, SignalKind.resetScheduler,
   SignalKind.refreshDetection, SignalKind.positionControl,
   SignalKind.removeJob, SignalKind.message]

def signalPending (sig : RemoteSignals) : SignalKind → Bool
  | SignalKind.pause => sig.system_pause
  | SignalKind.resume => sig.system_resume
  | SignalKind.restartSystem => sig.restart_system
  | SignalKind.restartGame => sig.restart_game
  | SignalKind.resetScheduler => sig.reset_scheduler
  | SignalKind.refreshDetection => sig.refresh_detection
  | SignalKind.positionControl => strTruthy sig.position_control.1
  | SignalKind.removeJob => strTruthy sig.remove_job
  | SignalKind.message => strTruthy sig.chat_request

def kindOf : RemoteAction → SignalKind
  | RemoteAction.pause_all => SignalKind.pause
  | RemoteAction.resume_all => SignalKind.resume
  | RemoteAction.restart_system => SignalKind.restartSystem
  | RemoteAction.restart_game => SignalKind.restartGame
  | RemoteAction.reset_scheduler => SignalKind.resetScheduler
  | RemoteAction.refresh_detection => SignalKind.refreshDetection
  | RemoteAction.position_control _ _ => SignalKind.positionControl
  | RemoteAction.remove_job _ => SignalKind.removeJob
  | RemoteAction.chat _ => SignalKind.message

/-- C9: within one drain the signal kinds are checked in the fixed
order pause, resume, restart-system, restart-game, reset-scheduler,
refresh-detection, duty-toggle, job-removal, chat; the action taken is
exactly the first pending kind in that order, at most one action is
taken per tick, and with Pause and RestartHost both pending the drain
acts on Pause. -/
theorem c9_signal_drain_order :
    (∀ sig : RemoteSignals,
      (check_remote_control_signals sig).1.map kindOf =
        drainOrderSpec.find? (signalPending sig))
    ∧ (∀ sig : RemoteSignals,
      ((check_remote_control_signals sig).1.toList).length ≤ 1)
    ∧ (∀ sig : RemoteSignals, sig.system_pause = true →
      check_remote_control_signals sig = (some RemoteAction.pause_all, true)) := by
  refine ⟨?_, ?_, ?_⟩
  · intro sig
    obtain ⟨p, r, rs, rg, rsc, rd, pc, rj, cr⟩ := sig
    cases p <;> cases r <;> cases rs <;> cases rg <;> cases rsc <;> cases rd <;>
      simp [check_remote_control_signals, signalPending, drainOrderSpec,
        List.find?, kindOf] <;>
      split_ifs <;> simp_all [kindOf]
  · intro sig
    unfold check_remote_control_signals
    split_ifs <;> simp
  · intro sig h
    simp [check_remote_control_signals, h]

/-- Witness for c9_signal_drain_order: a drain with Pause and
RestartHost pending simultaneously (and a chat message queued) acts on
Pause alone. -/
theorem c9_signal_drain_order_witness :
    (check_remote_control_signals
      (RemoteSignals.mk true false false true false false (none, false) none
        (some "hello"))).1.map kindOf =
      drainOrderSpec.find? (signalPending
        (RemoteSignals.mk true false false true false false (none, false) none
          (some "hello")))
    ∧ ((check_remote_control_signals
      (RemoteSignals.mk true false false true false false (none, false) none
        (some "hello"))).1.toList).length ≤ 1
    ∧ check_remote_control_signals
      (RemoteSignals.mk true false false true false false (none, false) none
        (some "hello")) = (some RemoteAction.pause_all, true) :=
  ⟨c9_signal_drain_order.1
      (RemoteSignals.mk true false false true false false (none, false) none
        (some "hello")),
   c9_signal_drain_order.2.1
      (RemoteSignals.mk true false false true false false (none, false) none
        (some "hello")),
   c9_signal_drain_order.2.2
      (RemoteSignals.mk true false false true false false (none, false) none
        (some "hello")) rfl⟩
